/-
Verification of the email verification & rate-limiting engine of the
`cooperativa` repository (app `taxis`), shallowly embedded from
`taxis/utils.py` and the resend branch of `verify_email_view` in
`taxis/views.py`.

Modelling conventions:
- timestamps are integers counting microseconds, the resolution of the
  datetimes the code stores; `timedelta.total_seconds()` is the exact
  rational value (microseconds / 10^6), and Python `int()` on the positive
  remaining-cooldown value is truncation toward zero, `Int.tdiv`;
  `timezone.now().date()` becomes the UTC day index `dayOf`;
- the `EmailVerificationCode` table is a list of records, each carrying a
  primary key assigned at creation; `order_by("-created_at").first()` is
  `firstByLatest` (maximum `created_at`, earliest row wins ties);
- the `EmailSendLog` table is a total function from (lowercased email,
  day, email_type) to a count, defaulting to 0, which is exactly the
  observable behaviour of `get_or_create` with `count` defaulting to 0;
- Python's `str.lower()` is `lowercase` (per-character lowering);
- `random` code generation is replaced by passing the generated code
  string as an argument;
- the Spanish user-facing message strings are represented by the
  `ResendDenial` datatype carrying each message's numeric parameters.
-/

import Mathlib

set_option maxRecDepth 8000

/-- Microseconds per second: timestamps are counted in microseconds. -/
def usPerSecond : ℤ := 1000000

/-- Day index of a timestamp (models `timezone.now().date()`). -/
def dayOf (t : ℤ) : ℤ := Int.fdiv t (86400 * usPerSecond)

/-- Python `str.lower()`. -/
def lowercase (s : String) : String := ⟨s.data.map Char.toLower⟩

/-- The relevant fields of `CustomUser`. -/
structure CustomUser where
  uid : Nat
  email : String
deriving DecidableEq

/-- One row of the `EmailVerificationCode` table (models.py lines 196-226). -/
structure EmailVerificationCode where
  pk : Nat
  user : Nat
  code : String
  email_type : String
  created_at : ℤ
  expires_at : ℤ
  is_used : Bool
  used_at : Option ℤ
  attempt_count : Nat
  resend_count : Nat
  last_resend_at : Option ℤ
deriving DecidableEq

/-- The `EmailSendLog` table: count per (lowercased email, day, email_type). -/
def EmailSendLog : Type := String × ℤ × String → Nat

/-- The persistent store the engine operates on. -/
structure DB where
  codes : List EmailVerificationCode
  sendLog : EmailSendLog
  nextPk : Nat

def emptyDB : DB := ⟨[], fun _ => 0, 0⟩

/-- `MAX_CODE_ATTEMPTS` (utils.py line 24). -/
def MAX_CODE_ATTEMPTS : Nat := 5
/-- `MAX_RESENDS_PER_CODE` (utils.py line 25). -/
def MAX_RESENDS_PER_CODE : Nat := 5
/-- `RESEND_COOLDOWN_SECONDS` (utils.py line 26). -/
def RESEND_COOLDOWN_SECONDS : ℤ := 60
/-- `MAX_DAILY_RESENDS` (utils.py line 27). -/
def MAX_DAILY_RESENDS : Nat := 5

/-- The ORM filter `user=..., email_type=..., is_used=False, expires_at__gte=now`
used identically in `create_email_verification_code`, `can_resend_email_code`,
`register_email_resend` and the miss branch of `verify_email_code`. -/
def activeFilter (uid : Nat) (et : String) (now : ℤ)
    (c : EmailVerificationCode) : Bool :=
  c.user == uid && c.email_type == et && !c.is_used && decide (now ≤ c.expires_at)

/-- The ORM filter of the first query of `verify_email_code`: an active code
whose text equals the submitted code. -/
def matchFilter (uid : Nat) (code et : String) (now : ℤ)
    (c : EmailVerificationCode) : Bool :=
  c.user == uid && c.code == code && c.email_type == et && !c.is_used &&
    decide (now ≤ c.expires_at)

/-- `order_by("-created_at").first()`: the row with the largest `created_at`
among those satisfying `p` (the earliest row wins ties). -/
def firstByLatest (p : EmailVerificationCode → Bool) :
    List EmailVerificationCode → Option EmailVerificationCode
  | [] => none
  | c :: rest =>
    if p c then
      match firstByLatest p rest with
      | none => some c
      | some b => if c.created_at < b.created_at then some b else some c
    else firstByLatest p rest

/-- Apply `f` to the row with primary key `pk` (a `.save()` on that row). -/
def updateCode (pk : Nat) (f : EmailVerificationCode → EmailVerificationCode)
    (l : List EmailVerificationCode) : List EmailVerificationCode :=
  l.map fun c => if c.pk == pk then f c else c

/-- `register_email_send` (utils.py lines 116-130): bump today's count for
this email (lowercased) and type; no-op on an empty address. -/
def register_email_send (email et : String) (now : ℤ) (log : EmailSendLog) :
    EmailSendLog :=
  if email = "" then log
  else fun k => if k = (lowercase email, dayOf now, et) then log k + 1 else log k

/-- `_email_sends_today` (utils.py lines 99-113): today's count for this
email (lowercased) and type; 0 on an empty address. -/
def email_sends_today (email et : String) (now : ℤ) (log : EmailSendLog) : Nat :=
  if email = "" then 0 else log (lowercase email, dayOf now, et)

/-- `create_email_verification_code` (utils.py lines 138-172): mark every
active code of the same (user, email_type) as used with `used_at = now`, then
insert one fresh code expiring `validity_minutes` minutes from now.  The
randomly generated 6-digit string is the `newCode` argument. -/
def create_email_verification_code (user : CustomUser) (email_type : String)
    (validity_minutes : ℤ) (newCode : String) (now : ℤ) (db : DB) : DB :=
  { codes :=
      (db.codes.map fun c =>
        if activeFilter user.uid email_type now c then
          { c with is_used := true, used_at := some now }
        else c) ++
      [{ pk := db.nextPk, user := user.uid, code := newCode,
         email_type := email_type, created_at := now,
         expires_at := now + validity_minutes * 60 * usPerSecond,
         is_used := false, used_at := none, attempt_count := 0,
         resend_count := 0, last_resend_at := none }],
    sendLog := db.sendLog,
    nextPk := db.nextPk + 1 }

/-- The user-facing denial messages of `can_resend_email_code`, with their
interpolated numeric parameters. -/
inductive ResendDenial where
  | daily_limit (max_diario : Nat)
  | max_resends
  | cooldown (espera : ℤ)
deriving DecidableEq

/-- `can_resend_email_code` (utils.py lines 189-261): returns
(puede_enviar, mensaje_error, usados_hoy, max_diario).  The elapsed time and
the cooldown bound are compared in microseconds; `espera` is Python
`int(RESEND_COOLDOWN_SECONDS - elapsed_seconds)`, i.e. the remaining
microseconds divided by 10^6 truncating toward zero. -/
def can_resend_email_code (user : CustomUser) (email_type : String) (now : ℤ)
    (db : DB) : Bool × Option ResendDenial × Nat × Nat :=
  let email := lowercase user.email
  let today_used := email_sends_today email email_type now db.sendLog
  if today_used ≥ MAX_DAILY_RESENDS then
    (false, some (.daily_limit MAX_DAILY_RESENDS), today_used, MAX_DAILY_RESENDS)
  else
    match firstByLatest (activeFilter user.uid email_type now) db.codes with
    | none => (true, none, today_used, MAX_DAILY_RESENDS)
    | some code_obj =>
      if code_obj.resend_count ≥ MAX_RESENDS_PER_CODE then
        (false, some .max_resends, today_used, MAX_DAILY_RESENDS)
      else
        match code_obj.last_resend_at with
        | some t =>
          let elapsed := now - t
          if elapsed < RESEND_COOLDOWN_SECONDS * usPerSecond then
            (false,
              some (.cooldown
                (Int.tdiv (RESEND_COOLDOWN_SECONDS * usPerSecond - elapsed)
                  usPerSecond)),
              today_used, MAX_DAILY_RESENDS)
          else (true, none, today_used, MAX_DAILY_RESENDS)
        | none => (true, none, today_used, MAX_DAILY_RESENDS)

/-- `register_email_resend` (utils.py lines 264-291): bump the resend counter
and last-resend time of the most recent active code (no-op if none), then
register the send in the daily log for the user's (lowercased) email. -/
def register_email_resend (user : CustomUser) (email_type : String) (now : ℤ)
    (db : DB) : DB :=
  let codes :=
    match firstByLatest (activeFilter user.uid email_type now) db.codes with
    | some code_obj =>
      updateCode code_obj.pk
        (fun c => { c with resend_count := c.resend_count + 1,
                           last_resend_at := some now }) db.codes
    | none => db.codes
  let email := lowercase user.email
  let log := if email = "" then db.sendLog
             else register_email_send email email_type now db.sendLog
  { db with codes := codes, sendLog := log }

/-- `mark_email_code_as_used` (utils.py lines 333-342). -/
def mark_email_code_as_used (code_obj : EmailVerificationCode) (now : ℤ)
    (db : DB) : DB :=
  let codes :=
    updateCode code_obj.pk
      (fun c => { c with is_used := true, used_at := some now }) db.codes
  { db with codes := codes }

/-- `verify_email_code` (utils.py lines 345-396): returns the matching active
record (if its attempt counter is under the ceiling) and the resulting store;
on a miss, increments the attempt counter of the most recent active code,
invalidating it when the counter reaches `MAX_CODE_ATTEMPTS`. -/
def verify_email_code (user : CustomUser) (code : String) (email_type : String)
    (now : ℤ) (db : DB) : Option EmailVerificationCode × DB :=
  match firstByLatest (matchFilter user.uid code email_type now) db.codes with
  | none =>
    match firstByLatest (activeFilter user.uid email_type now) db.codes with
    | none => (none, db)
    | some last_code =>
      let codes :=
        updateCode last_code.pk
          (fun c =>
            if c.attempt_count + 1 ≥ MAX_CODE_ATTEMPTS then
              { c with attempt_count := c.attempt_count + 1,
                       is_used := true, used_at := some now }
            else { c with attempt_count := c.attempt_count + 1 })
          db.codes
      (none, { db with codes := codes })
  | some code_obj =>
    if code_obj.attempt_count ≥ MAX_CODE_ATTEMPTS then (none, db)
    else (some code_obj, db)

/-- The resend branch of `verify_email_view` (views.py lines 325-347): when
the "primary" rate-limit check allows, a fresh "primary" code is issued, but
the send is registered under `email_type="password_reset"`. -/
def verify_email_view_resend (user : CustomUser) (newCode : String) (now : ℤ)
    (db : DB) : DB :=
  if (can_resend_email_code user "primary" now db).1 then
    register_email_resend user "password_reset" now
      (create_email_verification_code user "primary" 15 newCode now db)
  else db

/- ------------------------------------------------------------------ -/
/- Helper lemmas                                                      -/
/- ------------------------------------------------------------------ -/

/-- A row returned by `firstByLatest` belongs to the table and satisfies the
filter. -/
theorem firstByLatest_eq_some {p : EmailVerificationCode → Bool}
    {l : List EmailVerificationCode} {c : EmailVerificationCode}
    (h : firstByLatest p l = some c) : c ∈ l ∧ p c = true := by
  induction l with
  | nil => simp [firstByLatest] at h
  | cons a rest ih =>
    rw [firstByLatest] at h
    by_cases hpa : p a
    · rw [if_pos hpa] at h
      cases hr : firstByLatest p rest with
      | none =>
        simp only [hr] at h
        cases h
        exact ⟨List.mem_cons_self _ _, hpa⟩
      | some b =>
        simp only [hr] at h
        by_cases hlt : a.created_at < b.created_at
        · rw [if_pos hlt] at h
          cases h
          rcases ih hr with ⟨hmem, hp⟩
          exact ⟨List.mem_cons_of_mem a hmem, hp⟩
        · rw [if_neg hlt] at h
          cases h
          exact ⟨List.mem_cons_self _ _, hpa⟩
    · rw [if_neg hpa] at h
      rcases ih h with ⟨hmem, hp⟩
      exact ⟨List.mem_cons_of_mem a hmem, hp⟩

/-- A deactivated row no longer passes the active filter, so filtering the
deactivation image of a table for active rows gives nothing. -/
theorem filter_deactivated_nil (uid : Nat) (et : String) (now : ℤ)
    (l : List EmailVerificationCode) :
    ((l.map fun c => if activeFilter uid et now c then
        { c with is_used := true, used_at := some now } else c).filter
      (activeFilter uid et now)) = [] := by
  induction l with
  | nil => rfl
  | cons a rest ih =>
    simp only [List.map_cons, List.filter_cons]
    by_cases h : activeFilter uid et now a
    · rw [if_pos h]
      have hd : activeFilter uid et now
          { a with is_used := true, used_at := some now } = false := by
        simp [activeFilter]
      rw [hd]
      simpa using ih
    · rw [if_neg h]
      have hd : activeFilter uid et now a = false := by
        simpa using h
      rw [hd]
      simpa using ih

/- ------------------------------------------------------------------ -/
/- C1                                                                 -/
/- ------------------------------------------------------------------ -/

/-- C1: after any call to `create_email_verification_code` (issue), at most
one `EmailVerificationCode` row of that (user, email_type) is active
(`is_used = false` and unexpired); the call marks every previously active row
of the pair as used with `used_at = now`, then appends exactly one new row
with `attempt_count = 0`, `resend_count = 0`, `last_resend_at = none` and
`expires_at = now + validity`. -/
theorem issue_single_active (u : CustomUser) (et : String) (v : ℤ)
    (newCode : String) (now : ℤ) (db : DB) :
    ((create_email_verification_code u et v newCode now db).codes.filter
        (activeFilter u.uid et now)).length ≤ 1 ∧
    (create_email_verification_code u et v newCode now db).codes =
      (db.codes.map fun c => if activeFilter u.uid et now c then
          { c with is_used := true, used_at := some now } else c) ++
      [{ pk := db.nextPk, user := u.uid, code := newCode, email_type := et,
         created_at := now, expires_at := now + v * 60 * usPerSecond,
         is_used := false, used_at := none, attempt_count := 0,
         resend_count := 0, last_resend_at := none }] := by
  constructor
  · show ((_ ++ _ : List EmailVerificationCode).filter _).length ≤ 1
    rw [List.filter_append, filter_deactivated_nil, List.nil_append]
    exact le_trans (List.length_filter_le _ _) (by simp)
  · rfl

/- ------------------------------------------------------------------ -/
/- Concrete scenario data shared by several results                   -/
/- ------------------------------------------------------------------ -/

/-- A registered user with a verified-format address. -/
def user1 : CustomUser := ⟨1, "a@b.c"⟩

/-- One `issue` at t = 0 (µs) with the default 15-minute validity: the new
code expires at t = 900 s. -/
def dbIssued : DB := create_email_verification_code user1 "primary" 15 "123456" 0 emptyDB

/-- The single row `dbIssued` holds. -/
def issuedRow : EmailVerificationCode :=
  ⟨0, 1, "123456", "primary", 0, 900000000, false, none, 0, 0, none⟩

/- ------------------------------------------------------------------ -/
/- C3                                                                 -/
/- ------------------------------------------------------------------ -/

/-- C3 counterexample: two `issue` calls for the same (identity, purpose),
the second 1000 s after the first (past the 900 s expiry of the first code),
leave TWO rows with `is_used = false` for the pair — the claim's "at most one
used = false including expired records" fails, because `issue` only
deactivates rows with `expires_at ≥ now`. -/
theorem two_unused_rows_after_spaced_issues :
    ¬ (((create_email_verification_code user1 "primary" 15 "222222" 1000000000
          (create_email_verification_code user1 "primary" 15 "111111" 0
            emptyDB)).codes.filter
        (fun c => c.user == user1.uid && c.email_type == "primary" &&
          !c.is_used)).length ≤ 1) := by decide

/-- C3 (amended): for all sequences of `issue` calls with the same
(identity, purpose), after each call at most one row of the pair is active,
i.e. has `is_used = false` AND `expires_at ≥ now`; rows that are already
expired may stay `is_used = false`. -/
theorem issue_at_most_one_unexpired_unused (u : CustomUser) (et : String)
    (v : ℤ) (newCode : String) (now : ℤ) (db : DB) :
    ((create_email_verification_code u et v newCode now db).codes.filter
        (activeFilter u.uid et now)).length ≤ 1 := by
  show ((_ ++ _ : List EmailVerificationCode).filter _).length ≤ 1
  rw [List.filter_append, filter_deactivated_nil, List.nil_append]
  exact le_trans (List.length_filter_le _ _) (by simp)

/- ------------------------------------------------------------------ -/
/- C4                                                                 -/
/- ------------------------------------------------------------------ -/

/-- The store after `issue` at t = 0 followed by five `record_send` calls
(one per minute) on the resulting code: the code's `resend_count` is 5 and
today's ledger count for (a@b.c, day 0, primary) is 5. -/
def dbFiveSends : DB :=
  register_email_resend user1 "primary" 240000000
    (register_email_resend user1 "primary" 180000000
      (register_email_resend user1 "primary" 120000000
        (register_email_resend user1 "primary" 60000000
          (register_email_resend user1 "primary" 0 dbIssued))))

/-- C4 counterexample: in the claim's scenario (one issue, five record_sends,
daily count 5 = cap), the 6th `can_send` does deny, but with the DAILY-LIMIT
message, not the "max resends for this code reached" message: the daily-cap
check runs first. -/
theorem sixth_can_send_denies_with_daily_limit :
    can_resend_email_code user1 "primary" 300000000 dbFiveSends =
      (false, some (ResendDenial.daily_limit 5), 5, 5) ∧
    some (ResendDenial.daily_limit 5) ≠ some ResendDenial.max_resends := by
  constructor
  · decide
  · decide

/-- C4 (amended): in the claim's scenario (one issue then five record_sends,
daily count 5 = cap), the 6th `can_send` denies with the daily-limit message
because that check runs first; and whenever today's count is under
`MAX_DAILY_RESENDS` and the most recent active code of the pair has
`resend_count ≥ MAX_RESENDS_PER_CODE`, `can_send` denies with the
"max resends for this code reached" message. -/
theorem max_resends_denies_below_daily_cap (u : CustomUser) (et : String)
    (now : ℤ) (db : DB) (c : EmailVerificationCode)
    (hdaily : email_sends_today (lowercase u.email) et now db.sendLog <
      MAX_DAILY_RESENDS)
    (hfind : firstByLatest (activeFilter u.uid et now) db.codes = some c)
    (hres : c.resend_count ≥ MAX_RESENDS_PER_CODE) :
    can_resend_email_code user1 "primary" 300000000 dbFiveSends =
      (false, some (ResendDenial.daily_limit 5), 5, 5) ∧
    can_resend_email_code u et now db =
      (false, some ResendDenial.max_resends,
        email_sends_today (lowercase u.email) et now db.sendLog,
        MAX_DAILY_RESENDS) := by
  constructor
  · decide
  · unfold can_resend_email_code
    rw [if_neg (by omega)]
    simp only [hfind]
    rw [if_pos hres]

/-- Witness for C4's amended theorem: a store whose ledger shows 3 sends
today while the active code already has 5 resends. -/
def rowFiveResends : EmailVerificationCode :=
  ⟨0, 1, "123456", "primary", 0, 900000000, false, none, 0, 5, some 0⟩

def dbFiveResendsLowDaily : DB :=
  ⟨[rowFiveResends], fun k => if k = ("a@b.c", 0, "primary") then 3 else 0, 1⟩

theorem max_resends_denies_below_daily_cap_witness :
    can_resend_email_code user1 "primary" 300000000 dbFiveSends =
      (false, some (ResendDenial.daily_limit 5), 5, 5) ∧
    can_resend_email_code user1 "primary" 100000000 dbFiveResendsLowDaily =
      (false, some ResendDenial.max_resends,
        email_sends_today (lowercase user1.email) "primary" 100000000
          dbFiveResendsLowDaily.sendLog,
        MAX_DAILY_RESENDS) :=
  max_resends_denies_below_daily_cap user1 "primary" 100000000
    dbFiveResendsLowDaily rowFiveResends (by decide) (by decide) (by decide)

/- ------------------------------------------------------------------ -/
/- C6                                                                 -/
/- ------------------------------------------------------------------ -/

/-- An active code whose last resend happened at t = 0.5 s. -/
def rowHalfSecondResend : EmailVerificationCode :=
  ⟨0, 1, "123456", "primary", 0, 900000000, false, none, 0, 1, some 500000⟩

def dbHalfSecondResend : DB := ⟨[rowHalfSecondResend], fun _ => 0, 1⟩

/-- C6 counterexample: with elapsed = 30.5 s the code denies with
"must wait 29 more seconds" (Python `int()` truncates), while the claim's
formula ceil(60 − 30.5) gives 30. -/
theorem cooldown_wait_is_not_ceil :
    can_resend_email_code user1 "primary" 31000000 dbHalfSecondResend =
      (false, some (ResendDenial.cooldown 29), 0, 5) ∧
    (29 : ℤ) ≠ ⌈(60 : ℚ) - ((31000000 - 500000 : ℤ) : ℚ) / ((usPerSecond : ℤ) : ℚ)⌉ := by
  constructor
  · decide
  · have hc : ⌈(60 : ℚ) - ((31000000 - 500000 : ℤ) : ℚ) / ((usPerSecond : ℤ) : ℚ)⌉ = 30 := by
      rw [Int.ceil_eq_iff]
      norm_num [usPerSecond]
    rw [hc]
    decide

/-- C6 (amended): when the daily cap and the per-code resend ceiling are not
reached and the most recent active code has a last-resend timestamp, then as
long as elapsed = now − last_resend is under 60 s, `can_send` denies with
"must wait N more seconds" where N is the remaining cooldown truncated toward
zero (Python `int(60 − elapsed)`, i.e. floor of the positive remainder), and
once 60 s have elapsed it allows. -/
theorem cooldown_truncated_wait_then_allow (u : CustomUser) (et : String)
    (now t : ℤ) (db : DB) (c : EmailVerificationCode)
    (hdaily : email_sends_today (lowercase u.email) et now db.sendLog <
      MAX_DAILY_RESENDS)
    (hfind : firstByLatest (activeFilter u.uid et now) db.codes = some c)
    (hres : ¬ (c.resend_count ≥ MAX_RESENDS_PER_CODE))
    (hlast : c.last_resend_at = some t) :
    (now - t < RESEND_COOLDOWN_SECONDS * usPerSecond →
      can_resend_email_code u et now db =
        (false, some (ResendDenial.cooldown
            (Int.tdiv (RESEND_COOLDOWN_SECONDS * usPerSecond - (now - t))
              usPerSecond)),
          email_sends_today (lowercase u.email) et now db.sendLog,
          MAX_DAILY_RESENDS)) ∧
    (RESEND_COOLDOWN_SECONDS * usPerSecond ≤ now - t →
      can_resend_email_code u et now db =
        (true, none, email_sends_today (lowercase u.email) et now db.sendLog,
          MAX_DAILY_RESENDS)) := by
  constructor
  · intro hcool
    unfold can_resend_email_code
    rw [if_neg (by omega)]
    simp only [hfind]
    rw [if_neg hres]
    simp only [hlast]
    rw [if_pos hcool]
  · intro hdone
    unfold can_resend_email_code
    rw [if_neg (by omega)]
    simp only [hfind]
    rw [if_neg hres]
    simp only [hlast]
    rw [if_neg (by omega)]

/-- Witness for C6's amended theorem: the 30.5 s-elapsed denial and the
allowance once 60.5 s have elapsed, on the same store. -/
theorem cooldown_truncated_wait_then_allow_witness :
    can_resend_email_code user1 "primary" 31000000 dbHalfSecondResend =
      (false, some (ResendDenial.cooldown 29), 0, 5) ∧
    can_resend_email_code user1 "primary" 61000000 dbHalfSecondResend =
      (true, none, 0, 5) := by
  constructor
  · have h := (cooldown_truncated_wait_then_allow user1 "primary" 31000000
      500000 dbHalfSecondResend rowHalfSecondResend (by decide) (by decide)
      (by decide) (by decide)).1 (by decide)
    rw [h]
    decide
  · have h := (cooldown_truncated_wait_then_allow user1 "primary" 61000000
      500000 dbHalfSecondResend rowHalfSecondResend (by decide) (by decide)
      (by decide) (by decide)).2 (by decide)
    rw [h]
    decide

/- ------------------------------------------------------------------ -/
/- C7                                                                 -/
/- ------------------------------------------------------------------ -/

/-- Shared helper: when the text-match query finds a row whose attempt
counter is under the ceiling, `verify_email_code` returns that row and
leaves the store untouched. -/
theorem verify_of_found_below_ceiling (u : CustomUser) (code et : String)
    (now : ℤ) (db : DB) (c : EmailVerificationCode)
    (hfind : firstByLatest (matchFilter u.uid code et now) db.codes = some c)
    (hatt : c.attempt_count < MAX_CODE_ATTEMPTS) :
    verify_email_code u code et now db = (some c, db) := by
  unfold verify_email_code
  simp only [hfind]
  rw [if_neg (by omega)]

/-- C7: when `verify` finds an active code exactly matching the submitted
text whose attempt counter is below the ceiling, it returns that record and
mutates no state — the store after the call is the store before it. -/
theorem verify_success_mutates_nothing (u : CustomUser) (code et : String)
    (now : ℤ) (db : DB) (c : EmailVerificationCode)
    (hfind : firstByLatest (matchFilter u.uid code et now) db.codes = some c)
    (hatt : c.attempt_count < MAX_CODE_ATTEMPTS) :
    (verify_email_code u code et now db).1 = some c ∧
    (verify_email_code u code et now db).2 = db := by
  rw [verify_of_found_below_ceiling u code et now db c hfind hatt]
  exact ⟨rfl, rfl⟩

/-- Witness for C7: verifying the correct text right after an issue returns
the issued row and leaves the store identical. -/
theorem verify_success_mutates_nothing_witness :
    (verify_email_code user1 "123456" "primary" 1000000 dbIssued).1 =
      some issuedRow ∧
    (verify_email_code user1 "123456" "primary" 1000000 dbIssued).2 =
      dbIssued :=
  verify_success_mutates_nothing user1 "123456" "primary" 1000000 dbIssued
    issuedRow (by decide) (by decide)

/- ------------------------------------------------------------------ -/
/- C8                                                                 -/
/- ------------------------------------------------------------------ -/

/-- C8: a stored code whose expiry is strictly before `now` is never the
record returned by `verify`, even when the submitted text matches exactly. -/
theorem verify_never_returns_expired (u : CustomUser) (code et : String)
    (now : ℤ) (db : DB) (c : EmailVerificationCode)
    (hmem : c ∈ db.codes) (hexp : c.expires_at < now) :
    (verify_email_code u code et now db).1 ≠ some c := by
  intro h
  unfold verify_email_code at h
  cases hm : firstByLatest (matchFilter u.uid code et now) db.codes with
  | none =>
    simp only [hm] at h
    cases ha : firstByLatest (activeFilter u.uid et now) db.codes with
    | none => simp only [ha] at h; simp at h
    | some lc => simp only [ha] at h; simp at h
  | some co =>
    simp only [hm] at h
    by_cases hc : co.attempt_count ≥ MAX_CODE_ATTEMPTS
    · rw [if_pos hc] at h
      simp at h
    · rw [if_neg hc] at h
      simp only [Option.some.injEq] at h
      subst h
      have hp := (firstByLatest_eq_some hm).2
      simp only [matchFilter, Bool.and_eq_true, decide_eq_true_eq] at hp
      omega

/-- Witness for C8: an expired row with matching text is not returned. -/
def dbExpiredOnly : DB := ⟨[issuedRow], fun _ => 0, 1⟩

theorem verify_never_returns_expired_witness :
    (verify_email_code user1 "123456" "primary" 1000000000 dbExpiredOnly).1 ≠
      some issuedRow :=
  verify_never_returns_expired user1 "123456" "primary" 1000000000
    dbExpiredOnly issuedRow (by decide) (by decide)

/- ------------------------------------------------------------------ -/
/- C9                                                                 -/
/- ------------------------------------------------------------------ -/

/-- `can_resend_email_code` reports as `usados_hoy` exactly today's ledger
count for the user's lowercased address and the type, in every branch. -/
theorem can_resend_today_used (u : CustomUser) (et : String) (now : ℤ)
    (db : DB) :
    (can_resend_email_code u et now db).2.2.1 =
      email_sends_today (lowercase u.email) et now db.sendLog := by
  unfold can_resend_email_code
  simp only []
  repeat' split
  all_goals rfl

/-- The ledger after `register_email_resend` is the ledger after
`register_email_send` on the user's lowercased address (or unchanged when
the address is empty). -/
theorem register_email_resend_sendLog (u : CustomUser) (et : String)
    (now : ℤ) (db : DB) :
    (register_email_resend u et now db).sendLog =
      if lowercase u.email = "" then db.sendLog
      else register_email_send (lowercase u.email) et now db.sendLog := rfl

/-- Registering a send for one address bumps today's count read through any
address with the same lowercased form by exactly one. -/
theorem register_email_send_bump (email email2 et : String) (now : ℤ)
    (log : EmailSendLog) (h1 : email ≠ "") (h2 : email2 ≠ "")
    (h : lowercase email = lowercase email2) :
    email_sends_today email2 et now (register_email_send email et now log) =
      email_sends_today email2 et now log + 1 := by
  unfold email_sends_today register_email_send
  rw [if_neg h2, if_neg h2, if_neg h1]
  rw [if_pos]
  rw [h]

/-- C9: the daily send ledger is keyed by (lowercased address, day, purpose)
independently of the account: a send registered for identity A increments the
`usados_hoy` count identity B's `can_send` reads, whenever the two identities
share the same lowercased address. -/
theorem shared_address_shares_daily_ledger (A B : CustomUser) (et : String)
    (now : ℤ) (db : DB)
    (hA : lowercase A.email ≠ "") (hB : lowercase B.email ≠ "")
    (hAB : lowercase A.email = lowercase B.email) :
    (can_resend_email_code B et now (register_email_resend A et now db)).2.2.1 =
      (can_resend_email_code B et now db).2.2.1 + 1 := by
  rw [can_resend_today_used, can_resend_today_used,
    register_email_resend_sendLog, if_neg hA,
    register_email_send_bump (lowercase A.email) (lowercase B.email) et now
      db.sendLog hA hB (congrArg lowercase hAB)]

/-- Witness for C9: identities 1 and 2 with differently-cased spellings of
the same address share the daily bucket. -/
theorem shared_address_shares_daily_ledger_witness :
    (can_resend_email_code ⟨2, "A@B.C"⟩ "primary" 0
        (register_email_resend ⟨1, "a@b.c"⟩ "primary" 0 emptyDB)).2.2.1 =
      (can_resend_email_code ⟨2, "A@B.C"⟩ "primary" 0 emptyDB).2.2.1 + 1 :=
  shared_address_shares_daily_ledger ⟨1, "a@b.c"⟩ ⟨2, "A@B.C"⟩ "primary" 0
    emptyDB (by decide) (by decide) (by decide)

/- ------------------------------------------------------------------ -/
/- C2                                                                 -/
/- ------------------------------------------------------------------ -/

/-- One wrong-text `verify` against a store holding exactly one code, which
is active for (u, et): it returns null and bumps that code's attempt counter,
additionally marking it used when the counter reaches the ceiling. -/
theorem verify_wrong_step (u : CustomUser) (c : EmailVerificationCode)
    (log : EmailSendLog) (npk : Nat) (et wrong : String) (now : ℤ)
    (huser : c.user = u.uid) (het : c.email_type = et)
    (hused : c.is_used = false) (hw : wrong ≠ c.code)
    (hexp : now ≤ c.expires_at) :
    verify_email_code u wrong et now ⟨[c], log, npk⟩ =
      (none, ⟨[if c.attempt_count + 1 ≥ MAX_CODE_ATTEMPTS then
          { c with attempt_count := c.attempt_count + 1, is_used := true,
                   used_at := some now }
        else { c with attempt_count := c.attempt_count + 1 }], log, npk⟩) := by
  have hcw : (c.code == wrong) = false :=
    beq_eq_false_iff_ne.mpr fun h => hw h.symm
  have hmf : matchFilter u.uid wrong et now c = false := by
    unfold matchFilter
    rw [hcw]
    simp
  have haf : activeFilter u.uid et now c = true := by
    unfold activeFilter
    rw [huser, het, hused]
    simp [hexp]
  have h1 : firstByLatest (matchFilter u.uid wrong et now) [c] = none := by
    simp [firstByLatest, hmf]
  have h2 : firstByLatest (activeFilter u.uid et now) [c] = some c := by
    simp [firstByLatest, haf]
  unfold verify_email_code
  simp only [h1, h2, updateCode, List.map_cons, List.map_nil, beq_self_eq_true,
    if_true]

/-- A `verify` against a store holding exactly one code that is already used
finds nothing and changes nothing. -/
theorem verify_used_single (u : CustomUser) (c : EmailVerificationCode)
    (log : EmailSendLog) (npk : Nat) (code et : String) (now : ℤ)
    (hused : c.is_used = true) :
    verify_email_code u code et now ⟨[c], log, npk⟩ =
      (none, ⟨[c], log, npk⟩) := by
  have h1 : firstByLatest (matchFilter u.uid code et now) [c] = none := by
    simp [firstByLatest, matchFilter, hused]
  have h2 : firstByLatest (activeFilter u.uid et now) [c] = none := by
    simp [firstByLatest, activeFilter, hused]
  unfold verify_email_code
  simp only [h1, h2]

/-- C2: with one active code with attempt counter 0 in the store, five
consecutive wrong-text `verify` calls each return null and each bump the
attempt counter of that code; the fifth additionally leaves it
`is_used = true` with `used_at` set, and a subsequent correct-text `verify`
also returns null. -/
theorem five_wrong_attempts_lock_out (u : CustomUser)
    (c : EmailVerificationCode) (log : EmailSendLog) (npk : Nat)
    (et wrong : String) (t1 t2 t3 t4 t5 t6 : ℤ)
    (huser : c.user = u.uid) (het : c.email_type = et)
    (hused : c.is_used = false) (hatt : c.attempt_count = 0)
    (hw : wrong ≠ c.code)
    (he2 : t2 ≤ c.expires_at) (he3 : t3 ≤ c.expires_at)
    (he4 : t4 ≤ c.expires_at) (he5 : t5 ≤ c.expires_at)
    (he1 : t1 ≤ c.expires_at) :
    verify_email_code u wrong et t1 ⟨[c], log, npk⟩ =
      (none, ⟨[{ c with attempt_count := 1 }], log, npk⟩) ∧
    verify_email_code u wrong et t2 ⟨[{ c with attempt_count := 1 }], log, npk⟩ =
      (none, ⟨[{ c with attempt_count := 2 }], log, npk⟩) ∧
    verify_email_code u wrong et t3 ⟨[{ c with attempt_count := 2 }], log, npk⟩ =
      (none, ⟨[{ c with attempt_count := 3 }], log, npk⟩) ∧
    verify_email_code u wrong et t4 ⟨[{ c with attempt_count := 3 }], log, npk⟩ =
      (none, ⟨[{ c with attempt_count := 4 }], log, npk⟩) ∧
    verify_email_code u wrong et t5 ⟨[{ c with attempt_count := 4 }], log, npk⟩ =
      (none, ⟨[{ c with attempt_count := 5, is_used := true, used_at := some t5 }], log, npk⟩) ∧
    verify_email_code u c.code et t6
        ⟨[{ c with attempt_count := 5, is_used := true, used_at := some t5 }], log, npk⟩ =
      (none, ⟨[{ c with attempt_count := 5, is_used := true, used_at := some t5 }], log, npk⟩) := by
  refine ⟨?_, ?_, ?_, ?_, ?_, ?_⟩
  · have s := verify_wrong_step u c log npk et wrong t1 huser het hused hw he1
    rw [hatt] at s
    simpa [MAX_CODE_ATTEMPTS] using s
  · have s := verify_wrong_step u { c with attempt_count := 1 } log npk et
      wrong t2 huser het hused hw he2
    simpa [MAX_CODE_ATTEMPTS] using s
  · have s := verify_wrong_step u { c with attempt_count := 2 } log npk et
      wrong t3 huser het hused hw he3
    simpa [MAX_CODE_ATTEMPTS] using s
  · have s := verify_wrong_step u { c with attempt_count := 3 } log npk et
      wrong t4 huser het hused hw he4
    simpa [MAX_CODE_ATTEMPTS] using s
  · have s := verify_wrong_step u { c with attempt_count := 4 } log npk et
      wrong t5 huser het hused hw he5
    simpa [MAX_CODE_ATTEMPTS] using s
  · exact verify_used_single u
      { c with attempt_count := 5, is_used := true, used_at := some t5 }
      log npk c.code et t6 rfl

/-- Witness for C2: the lockout run on the concrete issued code, with wrong
text "000000" at t = 1..5 s and the correct text at t = 6 s. -/
theorem five_wrong_attempts_lock_out_witness :
    verify_email_code user1 "000000" "primary" 1000000 ⟨[issuedRow], fun _ => 0, 1⟩ =
      (none, ⟨[{ issuedRow with attempt_count := 1 }], fun _ => 0, 1⟩) ∧
    verify_email_code user1 "000000" "primary" 2000000 ⟨[{ issuedRow with attempt_count := 1 }], fun _ => 0, 1⟩ =
      (none, ⟨[{ issuedRow with attempt_count := 2 }], fun _ => 0, 1⟩) ∧
    verify_email_code user1 "000000" "primary" 3000000 ⟨[{ issuedRow with attempt_count := 2 }], fun _ => 0, 1⟩ =
      (none, ⟨[{ issuedRow with attempt_count := 3 }], fun _ => 0, 1⟩) ∧
    verify_email_code user1 "000000" "primary" 4000000 ⟨[{ issuedRow with attempt_count := 3 }], fun _ => 0, 1⟩ =
      (none, ⟨[{ issuedRow with attempt_count := 4 }], fun _ => 0, 1⟩) ∧
    verify_email_code user1 "000000" "primary" 5000000 ⟨[{ issuedRow with attempt_count := 4 }], fun _ => 0, 1⟩ =
      (none, ⟨[{ issuedRow with attempt_count := 5, is_used := true, used_at := some 5000000 }], fun _ => 0, 1⟩) ∧
    verify_email_code user1 issuedRow.code "primary" 6000000
        ⟨[{ issuedRow with attempt_count := 5, is_used := true, used_at := some 5000000 }], fun _ => 0, 1⟩ =
      (none, ⟨[{ issuedRow with attempt_count := 5, is_used := true, used_at := some 5000000 }], fun _ => 0, 1⟩) :=
  five_wrong_attempts_lock_out user1 issuedRow (fun _ => 0) 1 "primary"
    "000000" 1000000 2000000 3000000 4000000 5000000 6000000
    (by decide) (by decide) (by decide) (by decide) (by decide) (by decide)
    (by decide) (by decide) (by decide) (by decide)

/- ------------------------------------------------------------------ -/
/- C5                                                                 -/
/- ------------------------------------------------------------------ -/

/-- The registration resend on an empty store for user1 at t = 0 (the
rate-limit check allows: 0 sends today, no active code). -/
def dbAfterViewResend : DB := verify_email_view_resend user1 "999999" 0 emptyDB

/-- C5 (code bug): in the registration flow's resend branch, a "primary"
code is issued and transmitted, but the view registers the send with
`email_type="password_reset"`: the freshly issued primary code keeps
`resend_count = 0` and `last_resend_at = none`, the
(a@b.c, today, "primary") daily ledger count stays 0, and the
(a@b.c, today, "password_reset") count is incremented instead — so neither
primary counter tracks the primary transmission, contradicting the claim
(and the view's own intent: it rate-limits the branch under "primary"). -/
theorem view_resend_charges_wrong_purpose :
    dbAfterViewResend.codes.map
        (fun c => (c.email_type, c.resend_count, c.last_resend_at)) =
      [("primary", 0, none)] ∧
    dbAfterViewResend.sendLog ("a@b.c", 0, "primary") = 0 ∧
    dbAfterViewResend.sendLog ("a@b.c", 0, "password_reset") = 1 := by
  refine ⟨by decide, by decide, by decide⟩

/- ------------------------------------------------------------------ -/
/- C10                                                                -/
/- ------------------------------------------------------------------ -/

/-- Invariant: every unused row's attempt counter is under the ceiling. -/
def AttemptInv (db : DB) : Prop :=
  ∀ c ∈ db.codes, c.is_used = false → c.attempt_count < MAX_CODE_ATTEMPTS

/-- The stores reachable from the empty store by the engine operations
issue, record_send, verify and mark_used. -/
inductive Reachable : DB → Prop where
  | empty : Reachable emptyDB
  | issue (u : CustomUser) (et : String) (v : ℤ) (code : String) (now : ℤ)
      {db : DB} : Reachable db →
      Reachable (create_email_verification_code u et v code now db)
  | record_send (u : CustomUser) (et : String) (now : ℤ) {db : DB} :
      Reachable db → Reachable (register_email_resend u et now db)
  | verify_step (u : CustomUser) (code et : String) (now : ℤ) {db : DB} :
      Reachable db → Reachable (verify_email_code u code et now db).2
  | mark_used (c : EmailVerificationCode) (now : ℤ) {db : DB} :
      Reachable db → Reachable (mark_email_code_as_used c now db)

/-- A per-row `.save()` preserves the attempt invariant when the row
transformation does. -/
theorem attemptInv_updateCode {l : List EmailVerificationCode}
    (h : ∀ c ∈ l, c.is_used = false → c.attempt_count < MAX_CODE_ATTEMPTS)
    (pk : Nat) (f : EmailVerificationCode → EmailVerificationCode)
    (hf : ∀ a, (a.is_used = false → a.attempt_count < MAX_CODE_ATTEMPTS) →
      (f a).is_used = false → (f a).attempt_count < MAX_CODE_ATTEMPTS) :
    ∀ c ∈ updateCode pk f l, c.is_used = false →
      c.attempt_count < MAX_CODE_ATTEMPTS := by
  intro c hc hu
  rcases List.mem_map.1 hc with ⟨a, ha, rfl⟩
  by_cases hpk : (a.pk == pk) = true
  · simp only [hpk, if_true] at hu ⊢
    exact hf a (h a ha) hu
  · simp only [hpk, if_false] at hu ⊢
    exact h a ha hu

/-- `issue` preserves the attempt invariant. -/
theorem attemptInv_create (u : CustomUser) (et : String) (v : ℤ)
    (code : String) (now : ℤ) (db : DB) (h : AttemptInv db) :
    AttemptInv (create_email_verification_code u et v code now db) := by
  intro c hc hu
  unfold create_email_verification_code at hc
  simp only [List.mem_append, List.mem_map, List.mem_singleton] at hc
  rcases hc with ⟨a, ha, rfl⟩ | rfl
  · by_cases hf : activeFilter u.uid et now a = true
    · simp only [hf, if_true] at hu
      exact absurd hu (by simp)
    · simp only [hf, if_false] at hu ⊢
      exact h a ha hu
  · simp [MAX_CODE_ATTEMPTS]

/-- `record_send` preserves the attempt invariant. -/
theorem attemptInv_resend (u : CustomUser) (et : String) (now : ℤ) (db : DB)
    (h : AttemptInv db) : AttemptInv (register_email_resend u et now db) := by
  intro c hc hu
  simp only [register_email_resend] at hc
  cases hfb : firstByLatest (activeFilter u.uid et now) db.codes with
  | none =>
    simp only [hfb] at hc
    exact h c hc hu
  | some b =>
    simp only [hfb] at hc
    exact attemptInv_updateCode h b.pk
      (fun x => { x with resend_count := x.resend_count + 1,
                         last_resend_at := some now })
      (fun a ih hu2 => ih hu2) c hc hu

/-- `verify` preserves the attempt invariant. -/
theorem attemptInv_verify (u : CustomUser) (code et : String) (now : ℤ)
    (db : DB) (h : AttemptInv db) :
    AttemptInv (verify_email_code u code et now db).2 := by
  intro c hc hu
  unfold verify_email_code at hc
  cases hm : firstByLatest (matchFilter u.uid code et now) db.codes with
  | some b =>
    simp only [hm] at hc
    split at hc
    · exact h c hc hu
    · exact h c hc hu
  | none =>
    simp only [hm] at hc
    cases ha : firstByLatest (activeFilter u.uid et now) db.codes with
    | none =>
      simp only [ha] at hc
      exact h c hc hu
    | some lc =>
      simp only [ha] at hc
      refine attemptInv_updateCode h lc.pk _ ?_ c hc hu
      intro a _ hu2
      by_cases hinc : a.attempt_count + 1 ≥ MAX_CODE_ATTEMPTS
      · simp only [hinc, if_true] at hu2
        exact absurd hu2 (by simp)
      · simp only [hinc, if_false] at hu2 ⊢
        simp only [ge_iff_le, not_le] at hinc
        simpa using hinc

/-- `mark_used` preserves the attempt invariant. -/
theorem attemptInv_mark_used (b : EmailVerificationCode) (now : ℤ) (db : DB)
    (h : AttemptInv db) : AttemptInv (mark_email_code_as_used b now db) := by
  intro c hc hu
  simp only [mark_email_code_as_used] at hc
  refine attemptInv_updateCode h b.pk
    (fun x => { x with is_used := true, used_at := some now })
    ?_ c hc hu
  intro a _ hu2
  exact absurd hu2 (by simp)

/-- Every reachable store satisfies the attempt invariant. -/
theorem reachable_attemptInv {db : DB} (h : Reachable db) : AttemptInv db := by
  induction h with
  | empty => intro c hc _; simp [emptyDB] at hc
  | issue u et v code now _ ih => exact attemptInv_create u et v code now _ ih
  | record_send u et now _ ih => exact attemptInv_resend u et now _ ih
  | verify_step u code et now _ ih => exact attemptInv_verify u code et now _ ih
  | mark_used b now _ ih => exact attemptInv_mark_used b now _ ih

/-- C10: in every store reachable from the empty store by the engine
operations, every row with `is_used = false` has attempt counter under
`MAX_CODE_ATTEMPTS` (the verify step that reaches the ceiling sets
`is_used = true` in the same save), so the `verify_email_code` branch that
rejects a textually matching active code for being at the ceiling
(utils.py lines 391-393) can never fire: whenever the match query finds a
row, `verify` returns it. -/
theorem reachable_unused_below_ceiling (db : DB) (h : Reachable db) :
    (∀ c ∈ db.codes, c.is_used = false →
      c.attempt_count < MAX_CODE_ATTEMPTS) ∧
    ∀ (u : CustomUser) (code et : String) (now : ℤ)
      (c : EmailVerificationCode),
      firstByLatest (matchFilter u.uid code et now) db.codes = some c →
      verify_email_code u code et now db = (some c, db) := by
  refine ⟨reachable_attemptInv h, ?_⟩
  intro u code et now c hm
  rcases firstByLatest_eq_some hm with ⟨hmem, hp⟩
  have hused : c.is_used = false := by
    simp only [matchFilter, Bool.and_eq_true, Bool.not_eq_true',
      decide_eq_true_eq] at hp
    tauto
  have hlt := reachable_attemptInv h c hmem hused
  unfold verify_email_code
  simp only [hm]
  rw [if_neg (by omega)]

/-- Witness for C10: the store after one issue is reachable; its single
unused row is under the ceiling and the matching verify returns it. -/
theorem reachable_unused_below_ceiling_witness :
    issuedRow.attempt_count < MAX_CODE_ATTEMPTS ∧
    verify_email_code user1 "123456" "primary" 1000000 dbIssued =
      (some issuedRow, dbIssued) :=
  ⟨(reachable_unused_below_ceiling dbIssued
      (Reachable.issue user1 "primary" 15 "123456" 0 Reachable.empty)).1
      issuedRow (by decide) (by decide),
   (reachable_unused_below_ceiling dbIssued
      (Reachable.issue user1 "primary" 15 "123456" 0 Reachable.empty)).2
      user1 "123456" "primary" 1000000 issuedRow (by decide)⟩
